import Mathlib

/-!
# Skate-spot backend (`server/index.js`)

A shallow embedding of the route handlers of `server/index.js` and the
properties of the image list, the search filter, the image route and the
reverse-geocoding route.

Modelling conventions.

* The document collection is a list of `Spot` documents in insertion order.
  The store is assumed reachable; the failures modelled are the ones the
  handlers can provoke themselves: an identifier that does not cast, a
  document that does not validate, a duplicate `_id`.
* JavaScript strings are Lean strings, `Date.now()` is a natural number.
* Values that come from outside a handler (the clock reading taken when a
  file is stored, the identifier generated for a new document, the upstream
  response) are explicit inputs of the handler.
* Library behaviour that the source does not fix (`JSON.parse`, schema
  casting of the free-form body fields, the inherited properties of an array
  object, the case folding and the line ends of the regular-expression engine)
  is taken as a parameter.
-/

namespace Skeittipaikka

/-! ## JavaScript values -/

/-- An IEEE double as a value: `mantissa * 2 ^ exponent`, an infinity, or NaN. -/
inductive JsNumber
  | finite (mantissa exponent : Int)
  | infinity (negative : Bool)
  | nan
  deriving DecidableEq

/-- The JavaScript values a request body or a parsed JSON document can hold. -/
inductive JsVal
  | undefined
  | null
  | bool (b : Bool)
  | num (n : JsNumber)
  | str (s : String)
  | arr (items : List JsVal)
  | obj (props : List (String × JsVal))
  | func

/-- JavaScript truthiness of a number: everything but `0`, `-0` and `NaN`. -/
def JsNumber.truthy : JsNumber → Bool
  | .finite m _ => m != 0
  | .infinity _ => true
  | .nan => false

/-- JavaScript truthiness (`ToBoolean`). -/
def JsVal.truthy : JsVal → Bool
  | .undefined => false
  | .null => false
  | .bool b => b
  | .num n => n.truthy
  | .str s => s != ""
  | .arr _ => true
  | .obj _ => true
  | .func => true

/-- The operator `a || b`. -/
def JsVal.or (a b : JsVal) : JsVal :=
  if a.truthy then a else b

/-- The errors a handler can meet. -/
inductive JsError
  | castError
  | validationError
  | duplicateKey
  | typeError
  | syntaxError
  deriving DecidableEq

/-- `String.prototype.includes`: `search` occurs in `s` as a contiguous run. -/
def includes (s search : String) : Bool :=
  s.data.tails.any (fun t => search.data.isPrefixOf t)

/-! ## Data model (`spotSchema`) -/

/-- A store identifier: the 96-bit value of an `ObjectId`. -/
abbrev ObjectId := Nat

/-- The nested `coords` path of the schema. -/
structure Coords where
  lat : Option JsNumber
  lng : Option JsNumber
  deriving DecidableEq

/-- A document of the `Spot` model. -/
structure Spot where
  _id : ObjectId
  name : Option String
  city : Option String
  description : Option String
  category : Option JsNumber
  ratingFlat : Option JsNumber
  ratingCrowd : Option JsNumber
  coords : Coords
  imageUrl : List String
  deriving DecidableEq

/-- The schema default of `imageUrl`. -/
def defaultImageUrl : List String := ["/images/default-spot.svg"]

/-- The collection, in insertion order. -/
abbrev Store := List Spot

/-- Value of one hexadecimal digit. -/
def hexDigit (c : Char) : Option Nat :=
  if '0' ≤ c ∧ c ≤ '9' then some (c.toNat - '0'.toNat)
  else if 'a' ≤ c ∧ c ≤ 'f' then some (c.toNat - 'a'.toNat + 10)
  else if 'A' ≤ c ∧ c ≤ 'F' then some (c.toNat - 'A'.toNat + 10)
  else none

/-- Value of a string of hexadecimal digits, `none` when a character is not one. -/
def parseHex : List Char → Nat → Option Nat
  | [], acc => some acc
  | c :: cs, acc =>
    match hexDigit c with
    | some d => parseHex cs (acc * 16 + d)
    | none => none

/-- Casting the `:id` path parameter to an `ObjectId`: a string of 24
hexadecimal digits. (Drivers that also take a 12-byte string are not
modelled.) -/
def castObjectId (id : String) : Option ObjectId :=
  if id.length = 24 then parseHex id.data 0 else none

/-- `Spot.findById(id)`: rejects with a `CastError` when `id` does not cast,
resolves to `null` when no document has that `_id`. -/
def findById (st : Store) (id : String) : Except JsError (Option Spot) :=
  match castObjectId id with
  | none => .error .castError
  | some oid => .ok (st.find? (fun d => d._id == oid))

/-- `spot.save()` on a loaded document whose `imageUrl` was modified: the
modified path is written to the document with the same `_id`. -/
def saveImageUrl (st : Store) (spot : Spot) : Store :=
  st.map (fun d => if d._id = spot._id then { d with imageUrl := spot.imageUrl } else d)

/-! ## Upload handler (`multer.diskStorage`) -/

/-- A file part of a multipart request, with the value `Date.now()` has when
the storage engine names it. -/
structure Upload where
  originalname : String
  now : Nat
  deriving DecidableEq

/-- The file object the middleware puts on the request. -/
structure MulterFile where
  originalname : String
  filename : String
  deriving DecidableEq

/-- The `filename` callback of the storage: `Date.now() + '-' + file.originalname`. -/
def storageFilename (u : Upload) : String :=
  toString u.now ++ "-" ++ u.originalname

/-- Storing one uploaded part. -/
def storeUpload (u : Upload) : MulterFile :=
  { originalname := u.originalname, filename := storageFilename u }

/-! ## Responses -/

/-- The payload of a response. -/
inductive ResBody
  | spot (s : Spot)
  | spots (l : List Spot)
  | error (msg : String)
  | message (msg : String)
  | city (c : JsVal)
  | text (t : String)

/-- A response: status code and payload. -/
structure Response where
  status : Nat
  body : ResBody

/-! ## `GET /api/spots/:id` -/

/-- The handler of `GET /api/spots/:id`. -/
def getSpot (st : Store) (id : String) : Response :=
  match findById st id with
  | .error _ => ⟨500, .message "Virhe spotin haussa"⟩
  | .ok none => ⟨404, .message "Spot not found"⟩
  | .ok (some spot) => ⟨200, .spot spot⟩

/-! ## `POST /api/spots` -/

/-- The fields the handler reads from `req.body` (`undefined` when absent),
and the remaining body fields, which it never reads. -/
structure Body where
  name : JsVal
  city : JsVal
  coords : JsVal
  description : JsVal
  ratingFlat : JsVal
  ratingCrowd : JsVal
  category : JsVal
  others : List (String × JsVal)

/-- The object literal given to `new Spot({...})`. -/
structure SpotInput where
  name : JsVal
  city : JsVal
  coords : JsVal
  description : JsVal
  ratingFlat : JsVal
  ratingCrowd : JsVal
  category : JsVal
  imageUrl : Option (List String)

/-- The free-form fields of a document after schema casting. -/
structure SpotFields where
  name : Option String
  city : Option String
  description : Option String
  category : Option JsNumber
  ratingFlat : Option JsNumber
  ratingCrowd : Option JsNumber
  coords : Coords

/-- Library behaviour the handlers rely on and the source does not fix. -/
structure Env where
  /-- The function `JSON.parse`; `none` when it throws. -/
  jsonParse : String → Option JsVal
  /-- Schema casting of the free-form fields at `save()`; `none` when the
  document fails validation. -/
  castFields : SpotInput → Option SpotFields
  /-- What an array object answers for a property name that is neither one of
  its indices nor `length`: the value found on its prototype chain. -/
  inherited : String → JsVal
  /-- The case folding of the regular-expression engine under the flag `i`:
  two characters match when they fold to the same character. -/
  fold : Char → Char
  /-- The characters the regular-expression engine takes for a line end, which
  `.` does not match. -/
  lineEnd : Char → Bool

/-- A create request: the parsed body, the file parts of the `images` field
(`none` when the request is not multipart, so that `req.files` is undefined),
and the identifier generated for the new document. -/
structure CreateRequest where
  body : Body
  files : Option (List Upload)
  newId : ObjectId

/-- The statements `new Spot(input)` and `newSpot.save()`: the `imageUrl`
default is applied when the field is undefined, the free-form fields are cast,
and the insert is refused when the `_id` is taken. -/
def insertSpot (env : Env) (st : Store) (newId : ObjectId) (input : SpotInput) :
    Except JsError Spot :=
  match env.castFields input with
  | none => .error .validationError
  | some f =>
    if st.any (fun d => d._id == newId) then .error .duplicateKey
    else .ok
      { _id := newId, name := f.name, city := f.city, description := f.description,
        category := f.category, ratingFlat := f.ratingFlat, ratingCrowd := f.ratingCrowd,
        coords := f.coords, imageUrl := input.imageUrl.getD defaultImageUrl }

/-- The handler of `POST /api/spots`, after `uploadDisk.array('images')`. -/
def createSpot (env : Env) (st : Store) (req : CreateRequest) : Store × Response :=
  let files : Option (List MulterFile) := req.files.map (List.map storeUpload)
  let parsedCoords : JsVal :=
    match req.body.coords with
    | .str s => (env.jsonParse s).getD (.obj [])
    | v => v
  let images : List String :=
    match files with
    | some fs => if fs.length > 0 then fs.map (fun file => "/uploads/" ++ file.filename) else []
    | none => []
  let input : SpotInput :=
    { name := req.body.name, city := req.body.city, coords := parsedCoords,
      description := req.body.description, ratingFlat := req.body.ratingFlat,
      ratingCrowd := req.body.ratingCrowd, category := req.body.category,
      imageUrl := if images.length > 0 then some images else none }
  match insertSpot env st req.newId input with
  | .ok savedSpot => (st ++ [savedSpot], ⟨201, .spot savedSpot⟩)
  | .error _ => (st, ⟨500, .error "Skeittipaikan tallennus epäonnistui."⟩)

/-! ## `POST /api/spots/:id/add-image` -/

/-- The handler of `POST /api/spots/:id/add-image`, after
`uploadDisk.single('image')`; `file` is `none` when the request carries no
`image` part. -/
def addImage (st : Store) (id : String) (file : Option Upload) : Store × Response :=
  match findById st id with
  | .error _ => (st, ⟨500, .message "Kuvan tallennus epäonnistui"⟩)
  | .ok none => (st, ⟨404, .message "Spot ei löytynyt"⟩)
  | .ok (some found) =>
    let spot : Spot :=
      { found with imageUrl := found.imageUrl.filter (fun url => !includes url "default-spot.svg") }
    match file.map storeUpload with
    | some f =>
      let spot : Spot := { spot with imageUrl := spot.imageUrl ++ ["/uploads/" ++ f.filename] }
      (saveImageUrl st spot, ⟨200, .spot spot⟩)
    | none => (st, ⟨200, .spot spot⟩)

/-- A request that can change the collection. -/
inductive Request
  | create (req : CreateRequest)
  | addImage (id : String) (file : Option Upload)

/-- The collection after one request. -/
def step (env : Env) (st : Store) : Request → Store
  | .create req => (createSpot env st req).1
  | .addImage id file => (addImage st id file).1

/-- The collection after a sequence of requests. -/
def run (env : Env) (st : Store) (reqs : List Request) : Store :=
  reqs.foldl (step env) st

/-! ## Regular expressions (`new RegExp(q, 'i')` and the `$or` filter)

The pattern syntax modelled is the part common to the JavaScript constructor,
which validates the pattern, and to the store's engine, which evaluates it:
literal characters, `.`, `|`, groups `( )` and `(?: )`, the quantifiers `*`,
`+`, `?` with an optional lazy mark, and a backslash before a syntax
character; `]` and `}` on their own are literal characters. A pattern that
uses anything else (`[`, `{`, `^`, `$`, other escapes, other `(?` groups, a NUL
character, a Unicode line or paragraph separator) is reported as `outside`:
the model says nothing about it. -/

/-- A compiled pattern. -/
inductive Regex
  | eps
  | lit (c : Char)
  | any
  | seq (a b : Regex)
  | alt (a b : Regex)
  | star (a : Regex)

/-- The result of reading a pattern: a value, the `SyntaxError` the
constructor throws, or a pattern outside the modelled syntax. -/
inductive Compiled (α : Type)
  | ok (a : α)
  | syntaxError
  | outside

/-- The syntax characters of the pattern grammar. -/
def isSyntaxChar (c : Char) : Bool :=
  "^$\\.*+?()[]\x7b\x7d|".data.contains c

/-- A character that stands for itself in a pattern: not a syntax character
other than `]` and `}`, and not NUL, U+2028 or U+2029, which the store does
not take in a pattern as they are. -/
def isPlainChar (c : Char) : Bool :=
  (!isSyntaxChar c || c == ']' || c == Char.ofNat 125) &&
    c != Char.ofNat 0 && c != Char.ofNat 0x2028 && c != Char.ofNat 0x2029

/-- The alternation of a non-empty list of alternatives. -/
def altOf : Regex → List Regex → Regex
  | h, [] => h
  | h, x :: xs => .alt h (altOf x xs)

/-- Skips the lazy mark of a quantifier. -/
def dropLazy : List Char → List Char
  | '?' :: cs => cs
  | cs => cs

/-- Reads the quantifier that may follow an atom. -/
def applyQuantifier (atom : Regex) : List Char → Regex × List Char
  | [] => (atom, [])
  | c :: cs =>
    if c = '*' then (.star atom, dropLazy cs)
    else if c = '+' then (.seq atom (.star atom), dropLazy cs)
    else if c = '?' then (.alt atom .eps, dropLazy cs)
    else (atom, c :: cs)

/-- Reads an atom that is not a group; `c` is its first character. -/
def parseAtom (c : Char) (cs : List Char) : Compiled (Regex × List Char) :=
  if c = '.' then .ok (.any, cs)
  else if c = '\\' then
    match cs with
    | [] => .syntaxError
    | e :: rest => if isSyntaxChar e then .ok (.lit e, rest) else .outside
  else if isPlainChar c then .ok (.lit c, cs)
  else .outside

/-- What follows the `(` of a group: the body of a capturing or `(?:` group,
`none` for any other `(?` form. -/
def groupBody : List Char → Option (List Char)
  | '?' :: ':' :: cs => some cs
  | '?' :: _ => none
  | cs => some cs

/-- Puts a term in front of the first alternative of what follows it. -/
def prependTerm (term : Regex) :
    Compiled (Regex × List Regex × List Char) → Compiled (Regex × List Regex × List Char)
  | .ok (h, t, rest) => .ok (.seq term h, t, rest)
  | .syntaxError => .syntaxError
  | .outside => .outside

/-- Reads a disjunction up to the end of the pattern or an unconsumed `)`:
the first alternative, the other alternatives, the unread rest. Every
recursive call is on a shorter input, so a fuel above the length suffices. -/
def parseDisj : Nat → List Char → Compiled (Regex × List Regex × List Char)
  | 0, _ => .outside
  | _ + 1, [] => .ok (.eps, [], [])
  | fuel + 1, c :: cs =>
    if c = ')' then .ok (.eps, [], c :: cs)
    else if c = '|' then
      match parseDisj fuel cs with
      | .ok (h, t, rest) => .ok (.eps, h :: t, rest)
      | .syntaxError => .syntaxError
      | .outside => .outside
    else if c = '*' ∨ c = '+' ∨ c = '?' then .syntaxError
    else if c = '(' then
      match groupBody cs with
      | none => .outside
      | some body =>
        match parseDisj fuel body with
        | .ok (h, t, ')' :: rest) =>
          let (term, rest) := applyQuantifier (altOf h t) rest
          prependTerm term (parseDisj fuel rest)
        | .ok _ => .syntaxError
        | .syntaxError => .syntaxError
        | .outside => .outside
    else
      match parseAtom c cs with
      | .ok (atom, rest) =>
        let (term, rest) := applyQuantifier atom rest
        prependTerm term (parseDisj fuel rest)
      | .syntaxError => .syntaxError
      | .outside => .outside

/-- The constructor `new RegExp(q, 'i')`. -/
def newRegExp (q : String) : Compiled Regex :=
  match parseDisj (q.length + 1) q.data with
  | .ok (h, t, []) => .ok (altOf h t)
  | .ok _ => .syntaxError
  | .syntaxError => .syntaxError
  | .outside => .outside

/-- Repetition: zero or more rounds of `round`, each round consuming at least
one character. -/
def starRun (round : List Char → List (List Char)) : Nat → List Char → List (List Char)
  | 0, s => [s]
  | fuel + 1, s =>
    s :: (((round s).filter (fun t => t.length < s.length)).map (starRun round fuel)).flatten

/-- The inputs that can remain after the pattern has matched at the start of
`s`. -/
def Regex.run (env : Env) : Regex → List Char → List (List Char)
  | .eps, s => [s]
  | .lit c, s =>
    match s with
    | d :: t => if env.fold d = env.fold c then [t] else []
    | [] => []
  | .any, s =>
    match s with
    | d :: t => if env.lineEnd d then [] else [t]
    | [] => []
  | .seq a b, s => ((Regex.run env a s).map (Regex.run env b)).flatten
  | .alt a b, s => Regex.run env a s ++ Regex.run env b s
  | .star a, s => starRun (Regex.run env a) s.length s

/-- The pattern matches somewhere in `s`. -/
def Regex.test (env : Env) (r : Regex) (s : String) : Bool :=
  s.data.tails.any (fun t => !(r.run env t).isEmpty)

/-- One clause `{ field: regex }` of the filter: the field is present, a
string, and the pattern matches in it. -/
def fieldMatches (env : Env) (r : Regex) : Option String → Bool
  | some s => r.test env s
  | none => false

/-- The filter `{ $or: [{ name: regex }, { city: regex }, { description: regex }] }`. -/
def orFilter (env : Env) (r : Regex) (d : Spot) : Bool :=
  fieldMatches env r d.name || fieldMatches env r d.city || fieldMatches env r d.description

/-- The expression `req.query.q || ''`. -/
def queryOrEmpty : Option String → String
  | some s => if s != "" then s else ""
  | none => ""

/-- The handler of `GET /api/spots`; `none` when the pattern is outside the
modelled syntax. -/
def getSpots (env : Env) (st : Store) (q : Option String) : Option Response :=
  match newRegExp (queryOrEmpty q) with
  | .ok regex => some ⟨200, .spots (st.filter (orFilter env regex))⟩
  | .syntaxError => some ⟨500, .error "Tietojen haku epäonnistui."⟩
  | .outside => none

/-! ## `GET /api/spots/:id/image/:index` -/

/-- How a handler without a `try` block can end. -/
inductive Outcome
  | respond (r : Response)
  | sendFile (path : String)
  | uncaught (e : JsError)

/-- The property read `a[key]` on an array of strings. -/
def arrayGet (env : Env) (a : List String) (key : String) : JsVal :=
  if key = "length" then .num (.finite a.length 0)
  else
    match key.toNat? with
    | some i =>
      if toString i = key then
        match a[i]? with
        | some s => .str s
        | none => env.inherited key
      else env.inherited key
    | none => env.inherited key

/-- The call `s.replace(pat, rep)` with string arguments: the first occurrence
of `pat` is replaced. -/
def replaceFirst (pat rep : List Char) : List Char → List Char
  | [] => if pat.isPrefixOf [] then rep else []
  | c :: t =>
    if pat.isPrefixOf (c :: t) then rep ++ (c :: t).drop pat.length
    else c :: replaceFirst pat rep t

/-- The handler of `GET /api/spots/:id/image/:index`; the path sent is
relative to the server directory. -/
def getImage (env : Env) (st : Store) (id index : String) : Outcome :=
  match findById st id with
  | .error e => .uncaught e
  | .ok none => .respond ⟨404, .text "Kuvaa ei löytynyt"⟩
  | .ok (some spot) =>
    let v := arrayGet env spot.imageUrl index
    if !v.truthy then .respond ⟨404, .text "Kuvaa ei löytynyt"⟩
    else
      match v with
      | .str s => .sendFile (String.mk (replaceFirst "/uploads/".data "uploads/".data s.data))
      | _ => .uncaught .typeError

/-! ## `GET /api/reverse` -/

/-- The property read `v.key` for the names the handler reads (`address`,
`city`, `town`, `village`): an own property of an object, undefined on any
other value, a `TypeError` on `null` and `undefined`. -/
def JsVal.get (v : JsVal) (key : String) : Except JsError JsVal :=
  match v with
  | .undefined => .error .typeError
  | .null => .error .typeError
  | .obj props => .ok ((props.lookup key).getD .undefined)
  | _ => .ok .undefined

/-- The optional read `v?.key`. -/
def JsVal.optGet (v : JsVal) (key : String) : JsVal :=
  match v.get key with
  | .ok x => x
  | .error _ => .undefined

/-- The test `!lat` on a query parameter. -/
def queryMissing : Option String → Bool
  | some s => s == ""
  | none => true

/-- The handler of `GET /api/reverse`; `upstream` is the parsed body of the
upstream answer, `none` when the fetch or the parse fails. -/
def reverse (lat lon : Option String) (upstream : Option JsVal) : Response :=
  if queryMissing lat || queryMissing lon then ⟨400, .error "Lat ja lon vaaditaan"⟩
  else
    match upstream with
    | none => ⟨500, .error "Kaupunkia ei voitu hakea"⟩
    | some data =>
      match data.get "address" with
      | .error _ => ⟨500, .error "Kaupunkia ei voitu hakea"⟩
      | .ok address =>
        let city := (((address.optGet "city").or (address.optGet "town")).or
          (address.optGet "village")).or (.str "Tuntematon")
        ⟨200, .city city⟩

/-! ## Specification-side notions and concrete inputs -/

/-- The default image path of the schema. -/
def defaultImage : String := "/images/default-spot.svg"

/-- The image-list invariant: the list is not empty, and it is the default
image alone or does not hold the default image at all. -/
def GoodImages (l : List String) : Prop :=
  l ≠ [] ∧ (l = [defaultImage] ∨ defaultImage ∉ l)

/-- An environment for concrete evaluations: `JSON.parse` always throws, every
free-form field casts to an absent value, an array inherits no property, case
folding is that of the ASCII letters, and the line end is the line feed. -/
def sampleEnv : Env :=
  { jsonParse := fun _ => none
    castFields := fun _ =>
      some { name := none, city := none, description := none, category := none,
             ratingFlat := none, ratingCrowd := none, coords := ⟨none, none⟩ }
    inherited := fun _ => .undefined
    fold := Char.toLower
    lineEnd := fun c => c == '\n' }

/-- A request body with no field. -/
def emptyBody : Body :=
  { name := .undefined, city := .undefined, coords := .undefined, description := .undefined,
    ratingFlat := .undefined, ratingCrowd := .undefined, category := .undefined, others := [] }

/-- A document with no free-form field. -/
def bareSpot (id : ObjectId) (images : List String) : Spot :=
  { _id := id, name := none, city := none, description := none, category := none,
    ratingFlat := none, ratingCrowd := none, coords := ⟨none, none⟩, imageUrl := images }

/-- The path parameter of the identifier `1`. -/
def idOne : String := "000000000000000000000001"

/-- A document that has a name and nothing else. -/
def namedSpot (id : ObjectId) (name : String) : Spot :=
  { bareSpot id ["/images/default-spot.svg"] with name := some name }

/-- The pattern that matches the characters of `p` one after the other. -/
def literalSeq : List Char → Regex
  | [] => .eps
  | c :: cs => .seq (.lit c) (literalSeq cs)

/-- The string `q` occurs in `s` as a substring, compared case-insensitively:
the letters `A` to `Z` count as `a` to `z`, every other character as itself. -/
def occursIgnoringCase (q s : String) : Prop :=
  q.data.map Char.toLower <:+: s.data.map Char.toLower

/-- The string `q` occurs, compared case-insensitively, in the name, the city
or the description of the spot. -/
def occursInSpot (q : String) (d : Spot) : Prop :=
  (∃ s, d.name = some s ∧ occursIgnoringCase q s) ∨
  (∃ s, d.city = some s ∧ occursIgnoringCase q s) ∨
  (∃ s, d.description = some s ∧ occursIgnoringCase q s)

/-- The case folding of the engine is the one the comparison above uses: two
characters fold to the same character exactly when they are the same letter
up to case. -/
def FoldsLetterCase (env : Env) : Prop :=
  ∀ c d : Char, env.fold c = env.fold d ↔ c.toLower = d.toLower

/-- The spot has a name, a city or a description. -/
def hasText (d : Spot) : Prop :=
  d.name ≠ none ∨ d.city ≠ none ∨ d.description ≠ none

/-- A property of an object is present: reading it does not give `undefined`. -/
def JsVal.present : JsVal → Bool
  | .undefined => false
  | _ => true

/-- The city as the specification words it: the first present of
`address.city`, `address.town`, `address.village`, and the fallback string when
none is present or the address is missing. -/
def firstPresentCity (data : JsVal) : JsVal :=
  let address := data.optGet "address"
  ([address.optGet "city", address.optGet "town", address.optGet "village"].find?
    JsVal.present).getD (.str "Tuntematon")

/-- The first truthy of `address.city`, `address.town`, `address.village`, and
the fallback string when none is truthy or the address is missing. -/
def firstTruthyCity (data : JsVal) : JsVal :=
  let address := data.optGet "address"
  ([address.optGet "city", address.optGet "town", address.optGet "village"].find?
    JsVal.truthy).getD (.str "Tuntematon")

/-! ## Lemmas on image paths -/

theorem upload_path_ne_default (x : String) : "/uploads/" ++ x ≠ defaultImage := by
  intro h
  have := congrArg String.data h
  simp [defaultImage] at this

theorem default_includes_marker : includes defaultImage "default-spot.svg" = true := by
  decide

theorem default_not_mem_filter (l : List String) :
    defaultImage ∉ l.filter (fun url => !includes url "default-spot.svg") := by
  intro h
  have h2 := (List.mem_filter.mp h).2
  rw [default_includes_marker] at h2
  simp at h2

theorem default_not_mem_uploads (fs : List MulterFile) :
    defaultImage ∉ fs.map (fun file => "/uploads/" ++ file.filename) := by
  intro h
  obtain ⟨f, _, hf⟩ := List.mem_map.mp h
  exact upload_path_ne_default _ hf

theorem find_saveImageUrl (st : Store) (oid : ObjectId) (spot found : Spot)
    (hid : spot._id = found._id)
    (h : st.find? (fun d => d._id == oid) = some found) :
    (saveImageUrl st spot).find? (fun d => d._id == oid)
      = some { found with imageUrl := spot.imageUrl } := by
  induction st with
  | nil => simp at h
  | cons d rest ih =>
    simp only [saveImageUrl, List.map_cons, List.find?_cons] at h ⊢
    by_cases hd : (d._id == oid) = true
    · simp only [hd] at h
      have hdf : d = found := by simpa using h
      subst hdf
      simp [hid, hd]
    · have hd2 : (d._id == oid) = false := by simpa using hd
      rw [hd2] at h
      have ih2 := ih h
      by_cases he : d._id = spot._id
      · simp only [he, if_true]
        have : (spot._id == oid) = false := by rw [← he]; exact hd2
        simp only [this]
        exact ih2
      · simp only [he, if_false, hd2]
        exact ih2

/-! ## Creating a spot -/

theorem createSpot_created (env : Env) (st : Store) (req : CreateRequest)
    (h : (createSpot env st req).2.status = 201) :
    ∃ saved : Spot, createSpot env st req = (st ++ [saved], ⟨201, .spot saved⟩) ∧
      saved.imageUrl =
        (match req.files with
         | some fs =>
           if fs.length > 0 then fs.map (fun u => "/uploads/" ++ (storeUpload u).filename)
           else defaultImageUrl
         | none => defaultImageUrl) := by
  unfold createSpot at h ⊢
  simp only [] at h ⊢
  split at h
  · rename_i savedSpot hins
    refine ⟨savedSpot, rfl, ?_⟩
    unfold insertSpot at hins
    split at hins
    · cases hins
    · split at hins
      · cases hins
      · injection hins with hins
        subst hins
        cases hf : req.files with
        | none => simp
        | some fs =>
          cases fs with
          | nil => simp
          | cons u us => simp
  · simp at h

/-- C1: a create request that carries no uploaded file (`req.files` undefined
or empty) and is saved (answered 201) yields a record whose `imageUrl` is
exactly `["/images/default-spot.svg"]`, whatever the body holds. -/
theorem create_without_files_has_default_image (env : Env) (st : Store) (req : CreateRequest)
    (hfiles : req.files = none ∨ req.files = some [])
    (hsaved : (createSpot env st req).2.status = 201) :
    ∃ saved : Spot, createSpot env st req = (st ++ [saved], ⟨201, .spot saved⟩) ∧
      saved.imageUrl = ["/images/default-spot.svg"] := by
  obtain ⟨saved, hres, himg⟩ := createSpot_created env st req hsaved
  refine ⟨saved, hres, ?_⟩
  rcases hfiles with h | h
  · rw [h] at himg
    simpa [defaultImageUrl] using himg
  · rw [h] at himg
    simpa [defaultImageUrl] using himg

theorem create_without_files_has_default_image_witness :
    (({ body := emptyBody, files := none, newId := 1 } : CreateRequest).files = none ∨
      ({ body := emptyBody, files := none, newId := 1 } : CreateRequest).files = some []) ∧
    (createSpot sampleEnv [] { body := emptyBody, files := none, newId := 1 }).2.status = 201 ∧
    ∃ saved : Spot,
      createSpot sampleEnv [] { body := emptyBody, files := none, newId := 1 }
        = ([] ++ [saved], ⟨201, .spot saved⟩) ∧
      saved.imageUrl = ["/images/default-spot.svg"] :=
  ⟨Or.inl rfl, by decide,
    create_without_files_has_default_image sampleEnv []
      { body := emptyBody, files := none, newId := 1 } (Or.inl rfl) (by decide)⟩

/-- C2: a create request that carries at least one uploaded file and is saved
(answered 201) yields a record whose `imageUrl` is the list of
`/uploads/<timestamp>-<originalname>` paths in upload order, and the default
image `/images/default-spot.svg` is not in it. -/
theorem create_with_files_has_upload_paths (env : Env) (st : Store) (req : CreateRequest)
    (u : Upload) (us : List Upload) (hfiles : req.files = some (u :: us))
    (hsaved : (createSpot env st req).2.status = 201) :
    ∃ saved : Spot, createSpot env st req = (st ++ [saved], ⟨201, .spot saved⟩) ∧
      saved.imageUrl =
        (u :: us).map (fun f => "/uploads/" ++ (toString f.now ++ "-" ++ f.originalname)) ∧
      "/images/default-spot.svg" ∉ saved.imageUrl := by
  obtain ⟨saved, hres, himg⟩ := createSpot_created env st req hsaved
  rw [hfiles] at himg
  have himg2 : saved.imageUrl =
      (u :: us).map (fun f => "/uploads/" ++ (toString f.now ++ "-" ++ f.originalname)) := by
    simpa [storeUpload, storageFilename] using himg
  refine ⟨saved, hres, himg2, ?_⟩
  rw [himg2]
  intro hmem
  obtain ⟨f, _, hf⟩ := List.mem_map.mp hmem
  exact upload_path_ne_default _ hf

theorem create_with_files_has_upload_paths_witness :
    (({ body := emptyBody, files := some [⟨"rail.png", 17⟩, ⟨"default-spot.svg", 18⟩],
        newId := 1 } : CreateRequest).files
      = some (⟨"rail.png", 17⟩ :: [⟨"default-spot.svg", 18⟩])) ∧
    (createSpot sampleEnv []
      { body := emptyBody, files := some [⟨"rail.png", 17⟩, ⟨"default-spot.svg", 18⟩],
        newId := 1 }).2.status = 201 ∧
    ∃ saved : Spot,
      createSpot sampleEnv []
        { body := emptyBody, files := some [⟨"rail.png", 17⟩, ⟨"default-spot.svg", 18⟩],
          newId := 1 } = ([] ++ [saved], ⟨201, .spot saved⟩) ∧
      saved.imageUrl =
        (⟨"rail.png", 17⟩ :: [⟨"default-spot.svg", 18⟩]).map
          (fun f : Upload => "/uploads/" ++ (toString f.now ++ "-" ++ f.originalname)) ∧
      "/images/default-spot.svg" ∉ saved.imageUrl :=
  ⟨rfl, by decide,
    create_with_files_has_upload_paths sampleEnv []
      { body := emptyBody, files := some [⟨"rail.png", 17⟩, ⟨"default-spot.svg", 18⟩],
        newId := 1 } ⟨"rail.png", 17⟩ [⟨"default-spot.svg", 18⟩] rfl (by decide)⟩

/-! ## Adding an image -/

theorem addImage_found_file (st : Store) (id : String) (found : Spot) (u : Upload)
    (hfound : findById st id = .ok (some found)) :
    addImage st id (some u) =
      (saveImageUrl st
        { found with imageUrl :=
            found.imageUrl.filter (fun url => !includes url "default-spot.svg")
              ++ ["/uploads/" ++ storageFilename u] },
       ⟨200, .spot
        { found with imageUrl :=
            found.imageUrl.filter (fun url => !includes url "default-spot.svg")
              ++ ["/uploads/" ++ storageFilename u] }⟩) := by
  unfold addImage
  rw [hfound]
  rfl

theorem findById_after_save (st : Store) (id : String) (found : Spot) (images : List String)
    (hfound : findById st id = .ok (some found)) :
    findById (saveImageUrl st { found with imageUrl := images }) id
      = .ok (some { found with imageUrl := images }) := by
  unfold findById at hfound ⊢
  cases hc : castObjectId id with
  | none => rw [hc] at hfound; cases hfound
  | some oid =>
    rw [hc] at hfound
    simp only [] at hfound ⊢
    injection hfound with hfound
    rw [find_saveImageUrl st oid { found with imageUrl := images } found rfl hfound]

/-- C3: for an existing spot whose `imageUrl` is exactly
`["/images/default-spot.svg"]` and any uploaded file, add-image answers 200
with a record whose `imageUrl` has length 1 and holds exactly the new path
`/uploads/<generated-name>`; the record stored under the id is that record. -/
theorem addImage_replaces_default (st : Store) (id : String) (found : Spot) (u : Upload)
    (hfound : findById st id = .ok (some found))
    (hdefault : found.imageUrl = ["/images/default-spot.svg"]) :
    ∃ (st2 : Store) (updated : Spot),
      addImage st id (some u) = (st2, ⟨200, .spot updated⟩) ∧
      updated.imageUrl = ["/uploads/" ++ storageFilename u] ∧
      updated.imageUrl.length = 1 ∧
      "/images/default-spot.svg" ∉ updated.imageUrl ∧
      findById st2 id = .ok (some updated) := by
  have hfilter : found.imageUrl.filter (fun url => !includes url "default-spot.svg") = [] := by
    rw [hdefault]
    decide
  refine ⟨_, _, addImage_found_file st id found u hfound, ?_, ?_, ?_, ?_⟩
  · simp [hfilter]
  · simp [hfilter]
  · simp only [hfilter, List.nil_append, List.mem_singleton]
    exact fun h => upload_path_ne_default _ h.symm
  · exact findById_after_save st id found _ hfound

theorem addImage_replaces_default_witness :
    findById [bareSpot 1 ["/images/default-spot.svg"]] idOne
      = .ok (some (bareSpot 1 ["/images/default-spot.svg"])) ∧
    (bareSpot 1 ["/images/default-spot.svg"]).imageUrl = ["/images/default-spot.svg"] ∧
    ∃ (st2 : Store) (updated : Spot),
      addImage [bareSpot 1 ["/images/default-spot.svg"]] idOne (some ⟨"rail.png", 17⟩)
        = (st2, ⟨200, .spot updated⟩) ∧
      updated.imageUrl = ["/uploads/" ++ storageFilename ⟨"rail.png", 17⟩] ∧
      updated.imageUrl.length = 1 ∧
      "/images/default-spot.svg" ∉ updated.imageUrl ∧
      findById st2 idOne = .ok (some updated) :=
  ⟨rfl, rfl,
    addImage_replaces_default [bareSpot 1 ["/images/default-spot.svg"]] idOne
      (bareSpot 1 ["/images/default-spot.svg"]) ⟨"rail.png", 17⟩ rfl rfl⟩

/-! ## The image-list invariant -/

theorem goodImages_default : GoodImages defaultImageUrl :=
  ⟨by simp [defaultImageUrl], Or.inl rfl⟩

theorem createSpot_preserves (env : Env) (st : Store) (req : CreateRequest)
    (h : ∀ d ∈ st, GoodImages d.imageUrl) :
    ∀ d ∈ (createSpot env st req).1, GoodImages d.imageUrl := by
  by_cases hs : (createSpot env st req).2.status = 201
  · obtain ⟨saved, hres, himg⟩ := createSpot_created env st req hs
    rw [hres]
    intro d hd
    rcases List.mem_append.mp hd with hd | hd
    · exact h d hd
    · have hds : d = saved := by simpa using hd
      subst hds
      rw [himg]
      cases hf : req.files with
      | none => exact goodImages_default
      | some fs =>
        cases fs with
        | nil => exact goodImages_default
        | cons u us =>
          refine ⟨by simp, Or.inr ?_⟩
          intro hmem
          simp only [List.length_cons, gt_iff_lt, Nat.zero_lt_succ, if_true] at hmem
          obtain ⟨f, _, hf2⟩ := List.mem_map.mp hmem
          exact upload_path_ne_default _ hf2
  · have : (createSpot env st req).1 = st := by
      unfold createSpot at hs ⊢
      simp only [] at hs ⊢
      split
      · rename_i savedSpot hins
        rw [hins] at hs
        simp at hs
      · rfl
    rw [this]
    exact h

theorem addImage_preserves (st : Store) (id : String) (file : Option Upload)
    (h : ∀ d ∈ st, GoodImages d.imageUrl) :
    ∀ d ∈ (addImage st id file).1, GoodImages d.imageUrl := by
  unfold addImage
  split
  · exact h
  · exact h
  · rename_i found hfound
    cases file with
    | none => exact h
    | some u =>
      intro d hd
      simp only [Option.map_some', saveImageUrl] at hd
      obtain ⟨e, he, hde⟩ := List.mem_map.mp hd
      split at hde
      · subst hde
        refine ⟨by simp, Or.inr ?_⟩
        intro hmem
        rcases List.mem_append.mp hmem with hm | hm
        · exact default_not_mem_filter _ hm
        · have := List.mem_singleton.mp hm
          exact upload_path_ne_default _ this.symm
      · subst hde
        exact h e he

theorem run_preserves (env : Env) (reqs : List Request) (st : Store)
    (h : ∀ d ∈ st, GoodImages d.imageUrl) :
    ∀ d ∈ run env st reqs, GoodImages d.imageUrl := by
  induction reqs generalizing st with
  | nil => exact h
  | cons r rest ih =>
    unfold run
    rw [List.foldl_cons]
    apply ih
    cases r with
    | create req => exact createSpot_preserves env st req h
    | addImage id file => exact addImage_preserves st id file h

/-- C4: after every sequence of create and add-image requests from the empty
store, every stored spot has a non-empty `imageUrl`, and that list is either
`["/images/default-spot.svg"]` alone or does not contain the default image. -/
theorem stored_imageUrl_invariant (env : Env) (reqs : List Request) (d : Spot)
    (hd : d ∈ run env [] reqs) :
    d.imageUrl ≠ [] ∧
      (d.imageUrl = ["/images/default-spot.svg"] ∨
        "/images/default-spot.svg" ∉ d.imageUrl) :=
  run_preserves env reqs [] (by simp) d hd

theorem stored_imageUrl_invariant_witness :
    bareSpot 1 ["/uploads/17-rail.png"] ∈
      run sampleEnv []
        [.create { body := emptyBody, files := none, newId := 1 },
         .addImage idOne (some ⟨"rail.png", 17⟩)] ∧
    ((bareSpot 1 ["/uploads/17-rail.png"]).imageUrl ≠ [] ∧
      ((bareSpot 1 ["/uploads/17-rail.png"]).imageUrl = ["/images/default-spot.svg"] ∨
        "/images/default-spot.svg" ∉ (bareSpot 1 ["/uploads/17-rail.png"]).imageUrl)) :=
  ⟨by decide,
    stored_imageUrl_invariant sampleEnv
      [.create { body := emptyBody, files := none, newId := 1 },
       .addImage idOne (some ⟨"rail.png", 17⟩)]
      (bareSpot 1 ["/uploads/17-rail.png"]) (by decide)⟩

/-- C9: evaluation at an input where add-image removes a previously attached
image. A spot created with one file named `default-spot.svg` stores
`["/uploads/17-default-spot.svg"]`, which does not contain the default image;
adding `rail.png` to it answers 200 with `["/uploads/18-rail.png"]` and stores
that list: the earlier upload is gone. -/
theorem addImage_drops_upload_named_like_default :
    run sampleEnv [] [.create { body := emptyBody, files := some [⟨"default-spot.svg", 17⟩],
                                newId := 1 }]
      = [bareSpot 1 ["/uploads/17-default-spot.svg"]] ∧
    "/images/default-spot.svg" ∉ (bareSpot 1 ["/uploads/17-default-spot.svg"]).imageUrl ∧
    addImage [bareSpot 1 ["/uploads/17-default-spot.svg"]] idOne (some ⟨"rail.png", 18⟩)
      = ([bareSpot 1 ["/uploads/18-rail.png"]],
         ⟨200, .spot (bareSpot 1 ["/uploads/18-rail.png"])⟩) ∧
    ["/uploads/18-rail.png"] ≠ ["/uploads/17-default-spot.svg"] ++ ["/uploads/18-rail.png"] :=
  ⟨by decide, by decide, rfl, by decide⟩

/-- C10: evaluation at an input where the 200 response of add-image differs
from the stored record. For a stored spot with the default image and a request
without a file, the response carries an empty `imageUrl`, the store is
unchanged, and a following `GET /api/spots/:id` returns the default image. -/
theorem addImage_without_file_response_differs :
    addImage [bareSpot 1 ["/images/default-spot.svg"]] idOne none
      = ([bareSpot 1 ["/images/default-spot.svg"]], ⟨200, .spot (bareSpot 1 [])⟩) ∧
    getSpot (addImage [bareSpot 1 ["/images/default-spot.svg"]] idOne none).1 idOne
      = ⟨200, .spot (bareSpot 1 ["/images/default-spot.svg"])⟩ ∧
    (bareSpot 1 []).imageUrl ≠ (bareSpot 1 ["/images/default-spot.svg"]).imageUrl :=
  ⟨rfl, rfl, by decide⟩

/-! ## Search -/

/-- C5: evaluation at an input where the empty query does not return every
spot. A spot created from an empty body has no name, city or description; the
filter has no clause that such a document satisfies, so `GET /api/spots`
without `q`, or with an empty `q`, answers 200 with an empty list. -/
theorem getSpots_empty_query_omits_spot_without_text :
    run sampleEnv [] [.create { body := emptyBody, files := none, newId := 1 }]
      = [bareSpot 1 ["/images/default-spot.svg"]] ∧
    getSpots sampleEnv [bareSpot 1 ["/images/default-spot.svg"]] none
      = some ⟨200, .spots []⟩ ∧
    getSpots sampleEnv [bareSpot 1 ["/images/default-spot.svg"]] (some "")
      = some ⟨200, .spots []⟩ :=
  ⟨by decide, rfl, rfl⟩

theorem isSyntaxChar_false_iff (c : Char) :
    isSyntaxChar c = false ↔
      (c ≠ '^' ∧ c ≠ '$' ∧ c ≠ '\\' ∧ c ≠ '.' ∧ c ≠ '*' ∧ c ≠ '+' ∧ c ≠ '?' ∧ c ≠ '(' ∧
        c ≠ ')' ∧ c ≠ '[' ∧ c ≠ ']' ∧ c ≠ Char.ofNat 123 ∧ c ≠ Char.ofNat 125 ∧ c ≠ '|') := by
  have hd : "^$\\.*+?()[]\x7b\x7d|".data
      = ['^', '$', '\\', '.', '*', '+', '?', '(', ')', '[', ']', Char.ofNat 123,
          Char.ofNat 125, '|'] := by decide
  unfold isSyntaxChar
  rw [hd]
  simp

theorem isPlainChar_ne (c : Char) (h : isPlainChar c = true) :
    c ≠ ')' ∧ c ≠ '|' ∧ c ≠ '*' ∧ c ≠ '+' ∧ c ≠ '?' ∧ c ≠ '(' ∧ c ≠ '.' ∧ c ≠ '\\' := by
  simp only [isPlainChar, Bool.and_eq_true, Bool.or_eq_true, Bool.not_eq_true',
    beq_iff_eq] at h
  rcases h.1.1.1 with (hs | hs) | hs
  · obtain ⟨_, _, hbs, hdot, hstar, hplus, hq, hlp, hrp, _, _, _, _, hbar⟩ :=
      (isSyntaxChar_false_iff c).mp hs
    exact ⟨hrp, hbar, hstar, hplus, hq, hlp, hdot, hbs⟩
  · subst hs
    decide
  · subst hs
    decide

theorem applyQuantifier_plain (atom : Regex) (cs : List Char)
    (h : ∀ c ∈ cs, isPlainChar c = true) : applyQuantifier atom cs = (atom, cs) := by
  cases cs with
  | nil => rfl
  | cons c rest =>
    obtain ⟨_, _, hstar, hplus, hq, _, _, _⟩ := isPlainChar_ne c (h c (by simp))
    simp [applyQuantifier, hstar, hplus, hq]

theorem parseDisj_plain (cs : List Char) (fuel : Nat) (hfuel : cs.length < fuel)
    (h : ∀ c ∈ cs, isPlainChar c = true) :
    parseDisj fuel cs = .ok (literalSeq cs, [], []) := by
  induction cs generalizing fuel with
  | nil =>
    cases fuel with
    | zero => simp at hfuel
    | succ f => rfl
  | cons c rest ih =>
    cases fuel with
    | zero => simp at hfuel
    | succ f =>
      have hc := h c (by simp)
      have hrest : ∀ x ∈ rest, isPlainChar x = true := fun x hx => h x (by simp [hx])
      obtain ⟨hrp, hbar, hstar, hplus, hq, hlp, hdot, hbs⟩ := isPlainChar_ne c hc
      have hlen : rest.length < f := by simpa using hfuel
      simp only [parseDisj, hrp, hbar, hstar, hplus, hq, hlp, if_false, or_self, parseAtom,
        hdot, hbs, hc, if_true, applyQuantifier_plain _ rest hrest, ih f hlen hrest,
        prependTerm, literalSeq]

theorem newRegExp_plain (q : String) (h : ∀ c ∈ q.data, isPlainChar c = true) :
    newRegExp q = .ok (literalSeq q.data) := by
  unfold newRegExp
  rw [parseDisj_plain q.data (q.length + 1) (Nat.lt_succ_self _) h]
  rfl

theorem run_literalSeq (env : Env) (hfold : FoldsLetterCase env) (p s : List Char) :
    (literalSeq p).run env s ≠ [] ↔ p.map Char.toLower <+: s.map Char.toLower := by
  induction p generalizing s with
  | nil => simp [literalSeq, Regex.run]
  | cons c p ih =>
    cases s with
    | nil => simp [literalSeq, Regex.run]
    | cons d t =>
      simp only [literalSeq, Regex.run, List.map_cons]
      rw [List.cons_prefix_cons]
      by_cases hcd : env.fold d = env.fold c
      · have hlow : c.toLower = d.toLower := ((hfold d c).mp hcd).symm
        simp only [hcd, if_true, List.map_cons, List.map_nil, List.flatten_cons,
          List.flatten_nil, List.append_nil]
        rw [ih t]
        exact ⟨fun hp => ⟨hlow, hp⟩, fun hp => hp.2⟩
      · simp only [hcd, if_false, List.map_nil, List.flatten_nil, ne_eq, not_true_eq_false,
          false_iff]
        intro hp
        exact hcd ((hfold d c).mpr hp.1.symm)

theorem test_literalSeq (env : Env) (hfold : FoldsLetterCase env) (p : List Char) (s : String) :
    (literalSeq p).test env s = true ↔ p.map Char.toLower <:+: s.data.map Char.toLower := by
  unfold Regex.test
  rw [List.any_eq_true]
  constructor
  · rintro ⟨t, ht, hrun⟩
    have hne : (literalSeq p).run env t ≠ [] := by
      intro h
      rw [h] at hrun
      simp at hrun
    have hpre := (run_literalSeq env hfold p t).mp hne
    have hsuf : t <:+ s.data := (List.mem_tails _ _).mp ht
    obtain ⟨a, ha⟩ := hsuf
    obtain ⟨b, hb⟩ := hpre
    refine ⟨a.map Char.toLower, b, ?_⟩
    rw [← ha, List.map_append, ← hb]
    simp
  · rintro ⟨a, b, hab⟩
    refine ⟨s.data.drop a.length, ?_, ?_⟩
    · exact (List.mem_tails _ _).mpr (List.drop_suffix _ _)
    · have hne : (literalSeq p).run env (s.data.drop a.length) ≠ [] := by
        rw [run_literalSeq env hfold]
        refine ⟨b, ?_⟩
        rw [List.map_drop, ← hab]
        simp
      cases hr : (literalSeq p).run env (s.data.drop a.length) with
      | nil => exact absurd hr hne
      | cons x xs => simp

theorem fieldMatches_literalSeq (env : Env) (hfold : FoldsLetterCase env) (q : String)
    (f : Option String) :
    fieldMatches env (literalSeq q.data) f = true ↔
      ∃ s, f = some s ∧ occursIgnoringCase q s := by
  cases f with
  | none => simp [fieldMatches]
  | some s => simp [fieldMatches, test_literalSeq env hfold, occursIgnoringCase]

theorem orFilter_literalSeq (env : Env) (hfold : FoldsLetterCase env) (q : String) (d : Spot) :
    orFilter env (literalSeq q.data) d = true ↔ occursInSpot q d := by
  simp only [orFilter, Bool.or_eq_true, fieldMatches_literalSeq env hfold, occursInSpot,
    or_assoc]

theorem sampleEnv_foldsLetterCase : FoldsLetterCase sampleEnv :=
  fun _ _ => Iff.rfl

theorem park_occurs_ignoring_case : occursIgnoringCase "PARK" "park" := by
  unfold occursIgnoringCase
  decide

theorem queryOrEmpty_some (q : String) : queryOrEmpty (some q) = q := by
  unfold queryOrEmpty
  by_cases h : q = ""
  · simp [h]
  · simp [h]

/-- C6, as stated, fails: the query is read as a pattern. The query `.` returns
a spot named `park`, in whose fields `.` does not occur, and the queries `(`
and `*` answer 500. -/
theorem search_reads_query_as_pattern :
    (getSpots sampleEnv [namedSpot 1 "park"] (some ".")
        = some ⟨200, .spots [namedSpot 1 "park"]⟩ ∧
      ¬ occursInSpot "." (namedSpot 1 "park")) ∧
    getSpots sampleEnv [namedSpot 1 "park"] (some "(")
      = some ⟨500, .error "Tietojen haku epäonnistui."⟩ ∧
    getSpots sampleEnv [namedSpot 1 "park"] (some "*")
      = some ⟨500, .error "Tietojen haku epäonnistui."⟩ := by
  refine ⟨⟨rfl, ?_⟩, rfl, rfl⟩
  intro h
  rcases h with ⟨s, hs, ho⟩ | ⟨s, hs, _⟩ | ⟨s, hs, _⟩
  · have hs2 : s = "park" := by
      simp only [namedSpot, bareSpot, Option.some.injEq] at hs
      exact hs.symm
    subst hs2
    revert ho
    unfold occursIgnoringCase
    decide
  · simp [namedSpot, bareSpot] at hs
  · simp [namedSpot, bareSpot] at hs

/-- C6, amended: when the engine folds letter case, for every query `q` made
of characters that stand for themselves in a pattern (none of
`^ $ \ . * + ? ( ) [ {` and `|`, no NUL, U+2028 or U+2029),
`GET /api/spots?q=q` answers 200 with a sublist of the stored spots, and a
stored spot is in it if and only if `q` occurs, compared case-insensitively, as
a substring of a name, city or description the spot has; in particular the
query `PARK` returns every stored spot named `park`. The case of an empty `q`
and a spot with none of the three fields is left out. -/
theorem search_plain_query_is_substring_search (env : Env) (st : Store)
    (hfold : FoldsLetterCase env) :
    (∀ q : String, (∀ c ∈ q.data, isPlainChar c = true) →
      ∃ l : List Spot, getSpots env st (some q) = some ⟨200, .spots l⟩ ∧ l.Sublist st ∧
        ∀ d ∈ st, (q ≠ "" ∨ hasText d) → (d ∈ l ↔ occursInSpot q d)) ∧
    (∃ l : List Spot, getSpots env st (some "PARK") = some ⟨200, .spots l⟩ ∧
      ∀ d ∈ st, d.name = some "park" → d ∈ l) := by
  have hget : ∀ q : String, (∀ c ∈ q.data, isPlainChar c = true) →
      getSpots env st (some q)
        = some ⟨200, .spots (st.filter (orFilter env (literalSeq q.data)))⟩ := by
    intro q hplain
    unfold getSpots
    rw [queryOrEmpty_some, newRegExp_plain q hplain]
  constructor
  · intro q hplain
    refine ⟨_, hget q hplain, List.filter_sublist _, ?_⟩
    intro d hd _
    rw [List.mem_filter, orFilter_literalSeq env hfold]
    exact ⟨fun h => h.2, fun h => ⟨hd, h⟩⟩
  · refine ⟨_, hget "PARK" (by decide), ?_⟩
    intro d hd hname
    rw [List.mem_filter, orFilter_literalSeq env hfold]
    exact ⟨hd, Or.inl ⟨"park", hname, park_occurs_ignoring_case⟩⟩

theorem search_plain_query_is_substring_search_witness :
    FoldsLetterCase sampleEnv ∧
    (∀ c ∈ "PARK]".data, isPlainChar c = true) ∧
    (∃ l : List Spot,
      getSpots sampleEnv [namedSpot 1 "park", namedSpot 2 "Rail [park]"] (some "PARK]")
        = some ⟨200, .spots l⟩ ∧
      l.Sublist [namedSpot 1 "park", namedSpot 2 "Rail [park]"] ∧
      ∀ d ∈ [namedSpot 1 "park", namedSpot 2 "Rail [park]"], ("PARK]" ≠ "" ∨ hasText d) →
        (d ∈ l ↔ occursInSpot "PARK]" d)) ∧
    (∃ l : List Spot,
      getSpots sampleEnv [namedSpot 1 "park", namedSpot 2 "Rail [park]"] (some "PARK")
        = some ⟨200, .spots l⟩ ∧
      ∀ d ∈ [namedSpot 1 "park", namedSpot 2 "Rail [park]"], d.name = some "park" → d ∈ l) :=
  ⟨sampleEnv_foldsLetterCase, by decide,
    (search_plain_query_is_substring_search sampleEnv
      [namedSpot 1 "park", namedSpot 2 "Rail [park]"] sampleEnv_foldsLetterCase).1
      "PARK]" (by decide),
    (search_plain_query_is_substring_search sampleEnv
      [namedSpot 1 "park", namedSpot 2 "Rail [park]"] sampleEnv_foldsLetterCase).2⟩

theorem search_uppercase_query_finds_lowercase_name :
    getSpots sampleEnv [namedSpot 1 "park", namedSpot 2 "rail"] (some "PARK")
      = some ⟨200, .spots [namedSpot 1 "park"]⟩ ∧
    getSpots sampleEnv [namedSpot 1 "park", namedSpot 2 "Rail [park]"] (some "PARK]")
      = some ⟨200, .spots [namedSpot 2 "Rail [park]"]⟩ :=
  ⟨rfl, rfl⟩

/-! ## The image route -/

/-- C7: evaluation at inputs where an error escapes the image handler. With
the index `length` on an existing spot the guard passes (the value read is the
number 1) and the call of `replace` on it throws a `TypeError`; with an id that
does not cast, `findById` rejects; the handler has no `try` block, so neither
request is answered 404. -/
theorem getImage_errors_escape (env : Env) :
    getImage env [bareSpot 1 ["/images/default-spot.svg"]] idOne "length"
      = .uncaught .typeError ∧
    getImage env [bareSpot 1 ["/images/default-spot.svg"]] "xyz" "0"
      = .uncaught .castError :=
  ⟨rfl, rfl⟩

/-! ## Reverse geocoding -/

/-- C8, as stated, fails: for the upstream body `null` the answer is 500, and
for an address whose `city` is the empty string and whose `town` is `Espoo` the
answer is `Espoo`, while the first present of the three fields is the empty
string. -/
theorem reverse_null_body_and_empty_city :
    reverse (some "60.17") (some "24.94") (some .null)
      = ⟨500, .error "Kaupunkia ei voitu hakea"⟩ ∧
    reverse (some "60.17") (some "24.94")
        (some (.obj [("address", .obj [("city", .str ""), ("town", .str "Espoo")])]))
      = ⟨200, .city (.str "Espoo")⟩ ∧
    firstPresentCity (.obj [("address", .obj [("city", .str ""), ("town", .str "Espoo")])])
      = .str "" :=
  ⟨rfl, rfl, rfl⟩

theorem or_chain_eq_find (c t v fallback : JsVal) :
    ((c.or t).or v).or fallback = ([c, t, v].find? JsVal.truthy).getD fallback := by
  unfold JsVal.or
  cases hc : c.truthy <;> cases ht : t.truthy <;> cases hv : v.truthy <;>
    simp [List.find?, hc, ht, hv]

/-- C8, amended: when `lat` and `lon` are both supplied as non-empty strings
and the upstream JSON body is any value other than `null`, `GET /api/reverse`
answers 200 with `{city}` where `city` is the first truthy of `address.city`,
`address.town`, `address.village` in that order, and the fixed string
`Tuntematon` when none of the three is truthy, also when the address is
missing. -/
theorem reverse_answers_first_truthy_city (lat lon : String) (data : JsVal)
    (hlat : lat ≠ "") (hlon : lon ≠ "")
    (hnull : data ≠ .null) (hundef : data ≠ .undefined) :
    reverse (some lat) (some lon) (some data) = ⟨200, .city (firstTruthyCity data)⟩ := by
  unfold reverse firstTruthyCity
  have h1 : queryMissing (some lat) = false := by simp [queryMissing, hlat]
  have h2 : queryMissing (some lon) = false := by simp [queryMissing, hlon]
  simp only [h1, h2, Bool.or_self, Bool.false_eq_true, if_false]
  cases data with
  | undefined => exact absurd rfl hundef
  | null => exact absurd rfl hnull
  | bool b => simp only [JsVal.get, JsVal.optGet, or_chain_eq_find]
  | num n => simp only [JsVal.get, JsVal.optGet, or_chain_eq_find]
  | str s => simp only [JsVal.get, JsVal.optGet, or_chain_eq_find]
  | arr items => simp only [JsVal.get, JsVal.optGet, or_chain_eq_find]
  | obj props => simp only [JsVal.get, JsVal.optGet, or_chain_eq_find]
  | func => simp only [JsVal.get, JsVal.optGet, or_chain_eq_find]

theorem reverse_answers_first_truthy_city_witness :
    "60.17" ≠ "" ∧ "24.94" ≠ "" ∧
    JsVal.obj [("address", .obj [("town", .str "Espoo"), ("village", .str "Nuuksio")])]
      ≠ .null ∧
    JsVal.obj [("address", .obj [("town", .str "Espoo"), ("village", .str "Nuuksio")])]
      ≠ .undefined ∧
    reverse (some "60.17") (some "24.94")
        (some (.obj [("address", .obj [("town", .str "Espoo"), ("village", .str "Nuuksio")])]))
      = ⟨200, .city (.str "Espoo")⟩ :=
  ⟨by decide, by decide, by simp, by simp,
    reverse_answers_first_truthy_city "60.17" "24.94"
      (.obj [("address", .obj [("town", .str "Espoo"), ("village", .str "Nuuksio")])])
      (by decide) (by decide) (by simp) (by simp)⟩

end Skeittipaikka
